import Mathlib

/-!
Verification of the NIBRAS-RENDER-BACKEND product-catalog engine.

The definitions below are a shallow embedding of the JavaScript source:
the Mongoose `Product` schema with its pre-save hooks and increment
methods (src/middleware/admin.js, model portion), and the product routes
(src/routes/products.js).  Machine reals (JS floats used for prices and
relevance scores) are modelled as rationals; the document store is a
list of products; Mongo query objects are explicit predicate records.
-/

namespace Nibras

/-- The `stats` sub-document of a product (src/middleware/admin.js,
schema field `stats`): views / downloads / sales counters plus rating
average and count. -/
structure Stats where
  views : Nat
  downloads : Nat
  sales : Nat
  ratingAverage : Rat
  ratingCount : Nat
deriving DecidableEq

/-- An entry of the `images` array: `{url, alt, isPrimary}`. -/
structure Image where
  url : String
  alt : String
  isPrimary : Bool
deriving DecidableEq

/-- The Product document (src/middleware/admin.js, `productSchema`),
restricted to the fields the verified routes read or write.  `createdAt`
is the timestamp added by `timestamps: true`. -/
structure Product where
  id : String
  name : String
  slug : String
  description : String
  shortDescription : String
  price : Rat
  category : String
  tags : List String
  images : List Image
  isActive : Bool
  isFeatured : Bool
  stats : Stats
  createdBy : String
  updatedBy : Option String
  createdAt : Nat
deriving DecidableEq

/-- Index-aware map over the images array, mirroring the JavaScript
`forEach((img, index) => ...)` in-place mutation. -/
def mapWithIdx (f : Nat → Image → Image) : Nat → List Image → List Image
  | _, [] => []
  | i, img :: rest => f i img :: mapWithIdx f (i + 1) rest

/-- The body of the pre-save hook "ensure only one primary image"
(src/middleware/admin.js lines 242-256), as run when `images` was
modified: count the marked-primary entries; if more than one, set
`isPrimary := false` on every index greater than zero; if none and the
array is non-empty, mark the first entry primary. -/
def primaryImageHook (images : List Image) : List Image :=
  let primaryImages := images.filter (fun img => img.isPrimary)
  if primaryImages.length > 1 then
    mapWithIdx (fun index img =>
      if index > 0 then { img with isPrimary := false } else img) 0 images
  else if primaryImages.length == 0 && images.length > 0 then
    match images with
    | [] => images
    | img0 :: rest => { img0 with isPrimary := true } :: rest
  else images

/-- Claim C2: for every images sequence of length ≥ 1 submitted with
zero or with multiple isPrimary=true entries, reconciliation leaves
exactly one primary: the earliest-indexed marked entry if any were
marked, else the earliest entry.  The hook violates this: on flags
[false, true, true] it clears every index > 0 and leaves index 0
untouched, producing zero primary images instead of keeping index 1. -/
theorem C2_hook_zero_primaries :
    primaryImageHook
      [{ url := "u0", alt := "a0", isPrimary := false },
       { url := "u1", alt := "a1", isPrimary := true },
       { url := "u2", alt := "a2", isPrimary := true }] =
      [{ url := "u0", alt := "a0", isPrimary := false },
       { url := "u1", alt := "a1", isPrimary := false },
       { url := "u2", alt := "a2", isPrimary := false }]
    ∧ ((primaryImageHook
      [{ url := "u0", alt := "a0", isPrimary := false },
       { url := "u1", alt := "a1", isPrimary := true },
       { url := "u2", alt := "a2", isPrimary := true }]).filter
        (fun img => img.isPrimary)).length = 0 := by
  constructor <;> rfl

/-! ### Counter increments (claim C1)

`incrementViews` (src/middleware/admin.js lines 269-272) is
`this.stats.views += 1; return this.save()`: it adds one to the counter
of the in-memory document that an earlier `findById` fetched, then
writes that document back.  `incrementDownloads` and `incrementSales`
(lines 275-284) are identical up to the field.  We model an in-flight
invocation by two events: the fetch that reads the stored counter into
the invocation's snapshot, and the save that writes snapshot + 1 back
to the store.  A schedule is any interleaving of such events. -/

/-- One event of an increment invocation: invocation `i` fetches the
document (reading the current stored counter), or saves it (writing its
fetched counter plus one). -/
inductive IncEvent where
  | fetch (i : Nat)
  | save (i : Nat)
deriving DecidableEq

/-- State of the store plus the per-invocation fetched snapshots. -/
structure IncState where
  store : Nat
  snap : Nat → Option Nat

/-- One step of the read-modify-write increment: `fetch i` copies the
stored counter into invocation `i`'s document; `save i` writes that
document's counter plus one back (a save before the invocation's fetch
does nothing). -/
def incStep (st : IncState) : IncEvent → IncState
  | .fetch i => { st with snap := fun j => if j = i then some st.store else st.snap j }
  | .save i =>
    match st.snap i with
    | some v => { st with store := v + 1 }
    | none => st

/-- Run a schedule of increment events from an initial counter value and
return the final stored counter. -/
def incRun (init : Nat) (evs : List IncEvent) : Nat :=
  (evs.foldl incStep { store := init, snap := fun _ => none }).store

/-- Whether an event is a save (a dispatched increment reaching the store). -/
def isSaveEvent : IncEvent → Bool
  | .save _ => true
  | .fetch _ => false

/-- Number of increments a schedule successfully dispatches. -/
def countSaves (evs : List IncEvent) : Nat :=
  (evs.filter isSaveEvent).length

/-- Claim C1: counter increments are atomic store-side deltas, so for
any set of concurrent increments the final counter is never lower than
the number of successfully dispatched increments.  False: two
invocations that both fetch before either saves lose one update — two
saves are dispatched but the counter ends at 1. -/
theorem C1_lost_update :
    incRun 0 [IncEvent.fetch 0, IncEvent.fetch 1, IncEvent.save 0, IncEvent.save 1] = 1
    ∧ countSaves [IncEvent.fetch 0, IncEvent.fetch 1, IncEvent.save 0, IncEvent.save 1] = 2
    ∧ 1 < 2 := by
  refine ⟨rfl, rfl, ?_⟩
  decide

/-- The serial schedule of `n` increments: each invocation fetches and
saves before the next one starts. -/
def serialSched : Nat → List IncEvent
  | 0 => []
  | n + 1 => serialSched n ++ [IncEvent.fetch n, IncEvent.save n]

/-- A fetch immediately followed by the same invocation's save adds
exactly one to the stored counter. -/
theorem incStep_fetch_save (st : IncState) (i : Nat) :
    (incStep (incStep st (IncEvent.fetch i)) (IncEvent.save i)).store = st.store + 1 := by
  simp [incStep]

/-- Claim C1 amended: the increment methods are read-modify-write of a
fetched snapshot followed by a full save, so interleaved concurrent
invocations can lose updates; when invocations are serialized (each
fetch happens after the previous save) the counter grows by exactly the
number of increments. -/
theorem C1_serial_increment (init n : Nat) :
    incRun init (serialSched n) = init + n := by
  suffices h : ∀ m st, ((serialSched m).foldl incStep st).store = st.store + m by
    simpa [incRun] using h n { store := init, snap := fun _ => none }
  intro m
  induction m with
  | zero => intro st; simp [serialSched]
  | succ k ih =>
    intro st
    have : (serialSched (k + 1)).foldl incStep st =
        incStep (incStep ((serialSched k).foldl incStep st) (IncEvent.fetch k))
          (IncEvent.save k) := by
      simp [serialSched, List.foldl_append]
    rw [this, incStep_fetch_save, ih st]
    omega

/-! ### Listing products (src/routes/products.js lines 13-143) -/

/-- The eight legal categories (validator line 16 and schema enum). -/
def validCategories : List String :=
  ["templates", "components", "themes", "plugins", "courses", "ebooks", "graphics", "other"]

/-- The sort keys accepted by the `isIn` validator on line 19. -/
def knownSorts : List String :=
  ["newest", "oldest", "price-low", "price-high", "popular", "rating"]

/-- The optional query parameters of `GET /api/products` after type
coercion: integers and floats already parsed (a non-numeric string for
`page`/`limit`/`minPrice`/`maxPrice` is not representable here and is
rejected by the validators in the source). -/
structure ListParams where
  page : Option Nat := none
  limit : Option Nat := none
  category : Option String := none
  minPrice : Option Rat := none
  maxPrice : Option Rat := none
  sort : Option String := none
  search : Option String := none
  featured : Option String := none

/-- The express-validator chain on lines 14-20: every parameter is
optional; `page ≥ 1`, `1 ≤ limit ≤ 100`, `category` in the enumeration,
prices non-negative, `sort` in the known set, `search` of length 1-100.
`featured` has no validator. -/
def validListParams (ps : ListParams) : Bool :=
  (match ps.page with | none => true | some p => 1 ≤ p)
  && (match ps.limit with | none => true | some l => 1 ≤ l && l ≤ 100)
  && (match ps.category with | none => true | some c => validCategories.contains c)
  && (match ps.minPrice with | none => true | some m => 0 ≤ m)
  && (match ps.maxPrice with | none => true | some m => 0 ≤ m)
  && (match ps.sort with | none => true | some s => knownSorts.contains s)
  && (match ps.search with | none => true | some s => 1 ≤ s.length && s.length ≤ 100)

/-- The Mongo query object built on lines 44-66: it starts as
`{ isActive: true }` and the optional filters are added to it. -/
structure QueryPred where
  isActive : Bool
  category : Option String
  priceGte : Option Rat
  priceLte : Option Rat
  isFeatured : Option Bool
  textSearch : Option String

/-- Build the query object from the request parameters, mirroring
lines 44-66: the base predicate is `isActive: true`; category, price
bounds, the `featured === 'true'` flag, and the `$text` search term are
added when present. -/
def buildQuery (ps : ListParams) : QueryPred :=
  { isActive := true
    category := ps.category
    priceGte := ps.minPrice
    priceLte := ps.maxPrice
    isFeatured := if ps.featured == some "true" then some true else none
    textSearch := ps.search }

/-- Modelled from the spec: the document store's full-text matching
capability over the indexed text fields (`name`, `description`,
`shortDescription`, `tags`; index on lines 223-228).  The store itself
is out of scope; matching is modelled as substring containment. -/
def charsLead : List Char → List Char → Bool
  | [], _ => true
  | _ :: _, [] => false
  | a :: as, b :: bs => a == b && charsLead as bs

/-- Modelled from the spec: substring occurrence, helper for the
store's text matching. -/
def charsWithin (needle : List Char) : List Char → Bool
  | [] => charsLead needle []
  | c :: cs => charsLead needle (c :: cs) || charsWithin needle cs

/-- Modelled from the spec: a document matches a free-text query when
the term occurs in one of the indexed text fields. -/
def textMatches (s : String) (p : Product) : Bool :=
  charsWithin s.data p.name.data
  || charsWithin s.data p.description.data
  || charsWithin s.data p.shortDescription.data
  || p.tags.any (fun t => charsWithin s.data t.data)

/-- Evaluate the built query object against one document — the store's
semantics of the predicate handed to `Product.find` / `countDocuments`. -/
def evalQuery (q : QueryPred) (p : Product) : Bool :=
  (p.isActive == q.isActive)
  && (match q.category with | none => true | some c => p.category == c)
  && (match q.priceGte with | none => true | some m => m ≤ p.price)
  && (match q.priceLte with | none => true | some m => p.price ≤ m)
  && (match q.isFeatured with | none => true | some f => p.isFeatured == f)
  && (match q.textSearch with | none => true | some s => textMatches s p)

/-- A value of the sort object: an ascending or descending field, or
the `$meta: 'textScore'` relevance marker. -/
inductive SortVal where
  | asc
  | desc
  | textScore
deriving DecidableEq

/-- The `switch (sort)` on lines 70-91, including the `default` case
that falls back to `createdAt` descending. -/
def sortSwitch (sort : String) : List (String × SortVal) :=
  if sort = "newest" then [("createdAt", SortVal.desc)]
  else if sort = "oldest" then [("createdAt", SortVal.asc)]
  else if sort = "price-low" then [("price", SortVal.asc)]
  else if sort = "price-high" then [("price", SortVal.desc)]
  else if sort = "popular" then [("stats.sales", SortVal.desc), ("stats.views", SortVal.desc)]
  else if sort = "rating" then
    [("stats.rating.average", SortVal.desc), ("stats.rating.count", SortVal.desc)]
  else [("createdAt", SortVal.desc)]

/-- Lines 93-96: when a search term is present the relevance score is
spread in front of the resolved sort object
(`sortObj = { score: { $meta: 'textScore' }, ...sortObj }`); object key
order is sort-priority order. -/
def buildSortObj (sort : String) (search : Option String) : List (String × SortVal) :=
  let sortObj := sortSwitch sort
  if search.isSome then ("score", SortVal.textScore) :: sortObj else sortObj

/-- The sort specification a `listProducts` request sends to the store:
the destructuring default `sort = 'newest'` (line 38) feeds the switch,
then the search-score prepend. -/
def sortSpecOf (ps : ListParams) : List (String × SortVal) :=
  buildSortObj (ps.sort.getD "newest") ps.search

/-- Three-way comparison on rationals. -/
def ratCompare (a b : Rat) : Ordering :=
  if a < b then Ordering.lt else if b < a then Ordering.gt else Ordering.eq

/-- Compare two field values under a sort direction; `$meta: textScore`
orders by descending relevance. -/
def dirCompare : SortVal → Rat → Rat → Ordering
  | SortVal.asc, a, b => ratCompare a b
  | SortVal.desc, a, b => ratCompare b a
  | SortVal.textScore, a, b => ratCompare b a

/-- The sortable fields of a product, as the store reads them. -/
def productField (p : Product) (k : String) : Rat :=
  if k = "createdAt" then (p.createdAt : Rat)
  else if k = "price" then p.price
  else if k = "stats.sales" then (p.stats.sales : Rat)
  else if k = "stats.views" then (p.stats.views : Rat)
  else if k = "stats.rating.average" then p.stats.ratingAverage
  else if k = "stats.rating.count" then (p.stats.ratingCount : Rat)
  else 0

/-- A document as the store sorts it: the product plus its
store-computed relevance score. -/
def docField (d : Product × Rat) (k : String) : Rat :=
  if k = "score" then d.snd else productField d.fst k

/-- Lexicographic comparison along a sort specification — the store's
ordering semantics for the sort object. -/
def cmpSpec : List (String × SortVal) → Product × Rat → Product × Rat → Ordering
  | [], _, _ => Ordering.eq
  | (k, v) :: rest, a, b =>
    match dirCompare v (docField a k) (docField b k) with
    | Ordering.eq => cmpSpec rest a b
    | o => o

/-- The pagination metadata computed on lines 112-114 and returned on
lines 119-126: `totalPages = ceil(total / limit)`,
`hasNextPage = page < totalPages`, `hasPrevPage = page > 1`. -/
structure Pagination where
  currentPage : Nat
  totalPages : Nat
  totalProducts : Nat
  hasNextPage : Bool
  hasPrevPage : Bool
  limit : Nat
deriving DecidableEq

/-- Compute the pagination envelope from page, limit and total count. -/
def paginate (page limit total : Nat) : Pagination :=
  { currentPage := page
    totalPages := (total + limit - 1) / limit
    totalProducts := total
    hasNextPage := decide (page < (total + limit - 1) / limit)
    hasPrevPage := decide (1 < page)
    limit := limit }

/-- Result of `listProducts`: the 400 validation response of lines
24-30, or the success envelope of lines 116-134. -/
inductive ListResult where
  | validationError
  | ok (data : List Product) (pagination : Pagination)
deriving DecidableEq

/-- The `GET /api/products` handler: validate, build the query, filter
the store, apply `skip = (page - 1) * limit` and `limit`, and attach the
pagination metadata computed from the total count under the same
filter.  The result ordering is delegated to the store with the sort
specification `sortSpecOf ps`. -/
def listProducts (ps : ListParams) (store : List Product) : ListResult :=
  if validListParams ps then
    let page := ps.page.getD 1
    let limit := ps.limit.getD 12
    let matched := store.filter (fun p => evalQuery (buildQuery ps) p)
    let skip := (page - 1) * limit
    ListResult.ok ((matched.drop skip).take limit) (paginate page limit matched.length)
  else ListResult.validationError

/-! ### Single-item lookup (src/routes/products.js lines 148-187) -/

/-- One character of the ObjectId shape check. -/
def isHexChar (c : Char) : Bool :=
  c.isDigit || (('a' ≤ c) && (c ≤ 'f')) || (('A' ≤ c) && (c ≤ 'F'))

/-- The regular expression test on line 154: exactly 24 hexadecimal
characters. -/
def isHex24 (s : String) : Bool :=
  s.length == 24 && s.data.all isHexChar

/-- Result of `getProduct`: the 404 of lines 162-167 or the product. -/
inductive GetResult where
  | notFound
  | ok (p : Product)
deriving DecidableEq

/-- The `GET /api/products/:identifier` handler: ObjectId-shaped input
is looked up by id (`findById`), anything else by slug
(`findOne({slug})`); a missing or inactive match yields not-found.  The
fire-and-forget `incrementViews` side effect is modelled separately by
`incRun`. -/
def getProduct (identifier : String) (store : List Product) : GetResult :=
  let product? :=
    if isHex24 identifier then store.find? (fun p => p.id == identifier)
    else store.find? (fun p => p.slug == identifier)
  match product? with
  | none => GetResult.notFound
  | some p => if p.isActive then GetResult.ok p else GetResult.notFound

/-! ### Write path: pre-save hooks, create, update, soft delete -/

/-- Map characters for slug derivation: alphanumerics are lowercased,
anything else becomes a hyphen. -/
def slugChars (l : List Char) : List Char :=
  l.map (fun c => if c.isAlphanum then c.toLower else '-')

/-- Collapse runs of consecutive hyphens to a single hyphen. -/
def squeezeHyphens : List Char → List Char
  | [] => []
  | [c] => [c]
  | c :: d :: rest =>
    if c = '-' && d = '-' then squeezeHyphens (d :: rest)
    else c :: squeezeHyphens (d :: rest)

/-- Strip leading and trailing hyphens. -/
def trimHyphens (l : List Char) : List Char :=
  ((l.dropWhile (fun c => c = '-')).reverse.dropWhile (fun c => c = '-')).reverse

/-- Modelled from the spec: the external `slugify` library invoked with
`{lower: true, strict: true}` (src/middleware/admin.js lines 233-236),
whose code is not part of this repository — per §4.5 the slug is
"derived deterministically (lowercased, non-alphanumeric collapsed to
hyphens, trimmed)". -/
def slugify (name : String) : String :=
  String.mk (trimHyphens (squeezeHyphens (slugChars name.data)))

/-- Which hook-relevant paths a save marked modified (`isModified`). -/
structure ModifiedPaths where
  name : Bool
  images : Bool

/-- The slug pre-save hook (lines 231-239): when `name` was modified
the slug is regenerated from the name. -/
def slugHook (m : ModifiedPaths) (p : Product) : Product :=
  if m.name then { p with slug := slugify p.name } else p

/-- Both pre-save hooks in registration order: slug regeneration, then
primary-image reconciliation when `images` was modified (lines 242-256). -/
def preSave (m : ModifiedPaths) (p : Product) : Product :=
  let p1 := slugHook m p
  if m.images then { p1 with images := primaryImageHook p1.images } else p1

/-- A whitespace character as the express-validator `.trim()`
sanitizer strips it. -/
def isSpaceChar (c : Char) : Bool :=
  c = ' ' || c = '\t' || c = '\n' || c = '\r'

/-- Strip leading and trailing whitespace from a character list. -/
def trimChars (l : List Char) : List Char :=
  ((l.dropWhile isSpaceChar).reverse.dropWhile isSpaceChar).reverse

/-- The `.trim()` sanitizer in the validator chains: it rewrites the
request-body value to its whitespace-trimmed form before the length
check runs, and the handler then proceeds with the trimmed value. -/
def strTrim (s : String) : String :=
  String.mk (trimChars s.data)

/-- The body of a `PUT /api/products/:id` request.  The handler copies
every key present in `req.body` onto the document (lines 314-318), so
the body may carry any schema field, including the server-managed
`slug`, `stats`, `createdBy` and `isActive`. -/
structure UpdateBody where
  name : Option String := none
  description : Option String := none
  price : Option Rat := none
  category : Option String := none
  slug : Option String := none
  tags : Option (List String) := none
  images : Option (List Image) := none
  isActive : Option Bool := none
  isFeatured : Option Bool := none
  stats : Option Stats := none
  createdBy : Option String := none

/-- The field-copy loop of lines 314-318: every defined body key
overwrites the corresponding document field. -/
def applyBody (p : Product) (b : UpdateBody) : Product :=
  { p with
    name := b.name.getD p.name
    description := b.description.getD p.description
    price := b.price.getD p.price
    category := b.category.getD p.category
    slug := b.slug.getD p.slug
    tags := b.tags.getD p.tags
    images := b.images.getD p.images
    isActive := b.isActive.getD p.isActive
    isFeatured := b.isFeatured.getD p.isFeatured
    stats := b.stats.getD p.stats
    createdBy := b.createdBy.getD p.createdBy }

/-- Mongoose `isModified` after the copy loop: a primitive path counts
as modified when it was set to a value different from the stored one;
an array assignment marks the path modified. -/
def modifiedOf (p : Product) (b : UpdateBody) : ModifiedPaths :=
  { name := match b.name with | some n => n != p.name | none => false
    images := b.images.isSome }

/-- A slug collision as MongoDB's unique index reports it (error code
11000): some other stored document carries the same slug. -/
def slugCollides (store : List Product) (p : Product) : Bool :=
  store.any (fun q => q.id != p.id && q.slug == p.slug)

/-- Replace the stored document carrying the saved document's id. -/
def replaceInStore (store : List Product) (p : Product) : List Product :=
  store.map (fun q => if q.id == p.id then p else q)

/-- The document an update persists: the copy loop, then
`product.updatedBy = req.user.id` (line 320), then the pre-save hooks
run by `product.save()` (line 321). -/
def updatedDoc (p : Product) (b : UpdateBody) (actor : String) : Product :=
  { preSave (modifiedOf p b) (applyBody p b) with updatedBy := some actor }

/-- The `.trim()` sanitizers of the PUT validator chain (lines 275-292)
rewrite `name` and `description` to their trimmed values, which both
the length checks and the later copy loop then see. -/
def sanitizeUpdateBody (b : UpdateBody) : UpdateBody :=
  { b with name := b.name.map strTrim, description := b.description.map strTrim }

/-- The PUT validators on lines 275-292, applied to the sanitized body:
every checked field is optional; when present, `name` must be 1-100
characters after trimming, `description` 10-2000 after trimming,
`price` non-negative, `category` in the enumeration. -/
def validUpdateBody (b : UpdateBody) : Bool :=
  (match b.name with | none => true | some n => 1 ≤ n.length && n.length ≤ 100)
  && (match b.description with | none => true | some d => 10 ≤ d.length && d.length ≤ 2000)
  && (match b.price with | none => true | some pr => 0 ≤ pr)
  && (match b.category with | none => true | some c => validCategories.contains c)

/-- Result of `PUT /api/products/:id`: the 400 of lines 296-302, the
404 of lines 306-311, the generic 500 of lines 331-337 (the catch has
no duplicate-key branch), or the updated product. -/
inductive UpdateResult where
  | validationError
  | notFound
  | serverError
  | ok (p : Product)
deriving DecidableEq

/-- The `PUT /api/products/:id` handler (lines 274-338): sanitize and
validate the body (lines 295-302 answer 400 on failure), find the
document by id, copy every body key onto it, stamp `updatedBy`, save
through the pre-save hooks; a duplicate-slug error from the save falls
into the generic catch and surfaces as a server error. -/
def updateProduct (id : String) (b : UpdateBody) (actor : String)
    (store : List Product) : UpdateResult × List Product :=
  let sb := sanitizeUpdateBody b
  if validUpdateBody sb then
    match store.find? (fun p => p.id == id) with
    | none => (UpdateResult.notFound, store)
    | some p =>
      let p2 := updatedDoc p sb actor
      if slugCollides store p2 then (UpdateResult.serverError, store)
      else (UpdateResult.ok p2, replaceInStore store p2)
  else (UpdateResult.validationError, store)

/-- The body of a `POST /api/products` request.  `productData` is built
by spreading the whole body (line 219), so besides the validated fields
it may carry any schema field. -/
structure CreateBody where
  name : String
  description : String
  price : Rat
  category : String
  slug : Option String := none
  tags : Option (List String) := none
  images : Option (List Image) := none
  isActive : Option Bool := none
  stats : Option Stats := none

/-- The `.trim()` sanitizers of the POST validator chain (lines
193-200): `name` and `description` are trimmed before the length
checks, and `productData` is built from the trimmed values. -/
def sanitizeCreateBody (b : CreateBody) : CreateBody :=
  { b with name := strTrim b.name, description := strTrim b.description }

/-- The create validators on lines 193-206, applied to the sanitized
body: name 1-100 characters after trimming, description 10-2000 after
trimming, price non-negative, category in the enumeration. -/
def validCreateBody (b : CreateBody) : Bool :=
  (1 ≤ b.name.length && b.name.length ≤ 100)
  && (10 ≤ b.description.length && b.description.length ≤ 2000)
  && (0 ≤ b.price)
  && validCategories.contains b.category

/-- The fresh document `new Product(productData)` builds: body fields
where supplied, schema defaults otherwise, `createdBy` from the actor
(line 220), the store-assigned id and creation timestamp. -/
def newProduct (b : CreateBody) (actor newId : String) (now : Nat) : Product :=
  { id := newId
    name := b.name
    slug := b.slug.getD ""
    description := b.description
    shortDescription := ""
    price := b.price
    category := b.category
    tags := b.tags.getD []
    images := b.images.getD []
    isActive := b.isActive.getD true
    isFeatured := false
    stats := b.stats.getD { views := 0, downloads := 0, sales := 0,
                            ratingAverage := 0, ratingCount := 0 }
    createdBy := actor
    updatedBy := none
    createdAt := now }

/-- The document a create persists: on a new document every path is
modified, so both pre-save hooks run (slug generated from name,
primary image reconciled). -/
def createdDoc (b : CreateBody) (actor newId : String) (now : Nat) : Product :=
  preSave { name := true, images := true } (newProduct b actor newId now)

/-- Result of `POST /api/products`: validation failure (lines 210-216),
the distinct duplicate 400 `'Product with this name already exists'`
(lines 257-262, `error.code === 11000`), the generic 500, or the
created product. -/
inductive CreateResult where
  | validationError
  | duplicateSlug
  | serverError
  | ok (p : Product)
deriving DecidableEq

/-- The `POST /api/products` handler (lines 192-269): sanitize and
validate the body, build the document from the sanitized values, save
through the hooks; a duplicate-key error is mapped to the distinct
duplicate response. -/
def createProduct (b : CreateBody) (actor newId : String) (now : Nat)
    (store : List Product) : CreateResult × List Product :=
  let sb := sanitizeCreateBody b
  if validCreateBody sb then
    let p := createdDoc sb actor newId now
    if slugCollides store p then (CreateResult.duplicateSlug, store)
    else (CreateResult.ok p, store ++ [p])
  else (CreateResult.validationError, store)

/-- The document a soft delete persists: `isActive := false`,
`updatedBy` stamped (lines 355-356), saved through the hooks with
neither `name` nor `images` modified. -/
def softDeletedDoc (p : Product) (actor : String) : Product :=
  preSave { name := false, images := false } { p with isActive := false, updatedBy := some actor }

/-- Result of `DELETE /api/products/:id`. -/
inductive DeleteResult where
  | notFound
  | serverError
  | ok
deriving DecidableEq

/-- The `DELETE /api/products/:id` handler (lines 343-371): find by id,
flip `isActive` to false, stamp `updatedBy`, save. -/
def softDeleteProduct (id actor : String) (store : List Product) :
    DeleteResult × List Product :=
  match store.find? (fun p => p.id == id) with
  | none => (DeleteResult.notFound, store)
  | some p =>
    let p2 := softDeletedDoc p actor
    if slugCollides store p2 then (DeleteResult.serverError, store)
    else (DeleteResult.ok, replaceInStore store p2)

/-! ### Claims about the listing pipeline -/

/-- Claim C3: a `listProducts` request whose sort parameter is a string
outside the known set does not fail with a validation error and instead
falls back to `newest`.  False: the `isIn` validator on line 19 rejects
the value, so the request answers with the validation error before the
sort switch runs. -/
theorem C3_unknown_sort_rejected :
    listProducts { sort := some "banana" } [] = ListResult.validationError := by
  rfl

/-- Claim C3 amended: a `listProducts` request whose sort parameter is a
string outside the known set fails with a validation error; the
fall-back-to-newest default of the sort switch is unreachable for such
values and applies only when the parameter is absent. -/
theorem C3_unknown_sort_is_validation_error (ps : ListParams) (store : List Product)
    (s : String) (hs : ps.sort = some s) (hk : knownSorts.contains s = false) :
    listProducts ps store = ListResult.validationError := by
  have hks : ¬ (s ∈ knownSorts) := by simpa using hk
  have hv : validListParams ps = false := by
    unfold validListParams
    rw [hs]
    simp [hk]
    intro _ _ _ _ _ hmem
    exact (hks hmem).elim
  unfold listProducts
  rw [hv]
  simp

/-- Witness for the amended C3 at the concrete sort value `"banana"`. -/
theorem C3_unknown_sort_is_validation_error_witness :
    ({ sort := some "banana" } : ListParams).sort = some "banana"
    ∧ knownSorts.contains "banana" = false
    ∧ listProducts { sort := some "banana" } [] = ListResult.validationError :=
  ⟨rfl, by decide,
    C3_unknown_sort_is_validation_error { sort := some "banana" } [] "banana" rfl (by decide)⟩

/-- Claim C4: with a total count of zero the metadata has
`totalPages = 0`, `hasNextPage = false` and `hasPrevPage = false`
regardless of the requested page.  False for the last field: the code
computes `hasPrevPage = page > 1` (line 114) with no reference to the
total, so page 2 of an empty result set reports `hasPrevPage = true`. -/
theorem C4_empty_total_hasPrevPage :
    listProducts { page := some 2 } [] =
      ListResult.ok []
        { currentPage := 2, totalPages := 0, totalProducts := 0,
          hasNextPage := false, hasPrevPage := true, limit := 12 } := by
  rfl

/-- Claim C4 amended: with a total count of zero, `totalPages = 0` and
`hasNextPage = false` for every page, while `hasPrevPage` equals
`page > 1` regardless of the total — it is false only on page 1. -/
theorem C4_empty_total_pagination (page limit : Nat) :
    (paginate page limit 0).totalPages = 0
    ∧ (paginate page limit 0).hasNextPage = false
    ∧ (paginate page limit 0).hasPrevPage = decide (1 < page) := by
  have h0 : (limit - 1) / limit = 0 := by
    match limit with
    | 0 => rfl
    | l + 1 => exact Nat.div_eq_of_lt (by omega)
  refine ⟨?_, ?_, rfl⟩
  · simp [paginate, h0]
  · simp [paginate, h0]

/-- The built query always demands `isActive = true`, whatever the
filters: the first conjunct of the predicate evaluation. -/
theorem evalQuery_requires_active (ps : ListParams) (p : Product)
    (h : evalQuery (buildQuery ps) p = true) : p.isActive = true := by
  unfold evalQuery buildQuery at h
  simp only [Bool.and_eq_true, beq_iff_eq] at h
  exact h.1.1.1.1.1

/-- Claim C5: every catalog query predicate includes `isActive = true`
regardless of the supplied filters, so an inactive product never
appears in `listProducts` results, and `getProduct` on its identifier
or slug returns not-found even though the record is still in the store. -/
theorem C5_inactive_invisible (ps : ListParams) (store : List Product) (p : Product)
    (data : List Product) (pag : Pagination)
    (hinact : p.isActive = false)
    (hok : listProducts ps store = ListResult.ok data pag)
    (hfid : store.find? (fun q => q.id == p.id) = some p)
    (h24 : isHex24 p.id = true)
    (hfslug : store.find? (fun q => q.slug == p.slug) = some p)
    (hns : isHex24 p.slug = false) :
    p ∉ data
    ∧ getProduct p.id store = GetResult.notFound
    ∧ getProduct p.slug store = GetResult.notFound := by
  refine ⟨?_, ?_, ?_⟩
  · intro hmem
    unfold listProducts at hok
    by_cases hv : validListParams ps
    · rw [if_pos hv] at hok
      rw [ListResult.ok.injEq] at hok
      rw [← hok.1] at hmem
      have hmem2 := List.drop_subset _ _ (List.take_subset _ _ hmem)
      have hq := (List.mem_filter.mp hmem2).2
      have := evalQuery_requires_active ps p hq
      rw [this] at hinact
      exact Bool.noConfusion hinact
    · rw [if_neg hv] at hok
      exact ListResult.noConfusion hok
  · unfold getProduct
    rw [if_pos h24, hfid]
    simp [hinact]
  · unfold getProduct
    rw [if_neg (by simp [hns]), hfslug]
    simp [hinact]

/-- A soft-deleted product used to witness claim C5. -/
def inactiveSample : Product :=
  { id := "aaaaaaaaaaaaaaaaaaaaaaaa"
    name := "Hidden Widget"
    slug := "hidden-widget"
    description := "A widget that was soft deleted"
    shortDescription := ""
    price := 10
    category := "templates"
    tags := []
    images := []
    isActive := false
    isFeatured := false
    stats := { views := 3, downloads := 0, sales := 0, ratingAverage := 0, ratingCount := 0 }
    createdBy := "admin"
    updatedBy := none
    createdAt := 100 }

/-- Witness for claim C5: a store holding only a soft-deleted product
yields an empty listing, and both lookups return not-found. -/
theorem C5_inactive_invisible_witness :
    inactiveSample.isActive = false
    ∧ listProducts {} [inactiveSample] =
        ListResult.ok []
          { currentPage := 1, totalPages := 0, totalProducts := 0,
            hasNextPage := false, hasPrevPage := false, limit := 12 }
    ∧ [inactiveSample].find? (fun q => q.id == inactiveSample.id) = some inactiveSample
    ∧ isHex24 inactiveSample.id = true
    ∧ [inactiveSample].find? (fun q => q.slug == inactiveSample.slug) = some inactiveSample
    ∧ isHex24 inactiveSample.slug = false
    ∧ inactiveSample ∉ ([] : List Product)
    ∧ getProduct inactiveSample.id [inactiveSample] = GetResult.notFound
    ∧ getProduct inactiveSample.slug [inactiveSample] = GetResult.notFound := by
  refine ⟨rfl, by rfl, by rfl, by rfl, by rfl, by rfl, ?_⟩
  exact C5_inactive_invisible {} [inactiveSample] inactiveSample []
    { currentPage := 1, totalPages := 0, totalProducts := 0,
      hasNextPage := false, hasPrevPage := false, limit := 12 }
    rfl (by rfl) (by rfl) (by rfl) (by rfl) (by rfl)

/-- Comparing a rational with itself yields equality. -/
theorem ratCompare_self (x : Rat) : ratCompare x x = Ordering.eq := by
  simp [ratCompare]

/-- Comparing two distinct rationals never yields equality. -/
theorem ratCompare_ne_eq (x y : Rat) (h : x ≠ y) : ratCompare y x ≠ Ordering.eq := by
  unfold ratCompare
  rcases lt_trichotomy x y with hlt | heq | hgt
  · simp [not_lt_of_gt hlt, hlt]
  · exact absurd heq h
  · simp [hgt]

/-- Claim C9: when a search term is present the relevance score is
prepended as the primary sort key ahead of the criteria resolved from
the sort parameter: the spec sent to the store starts with the score
key, documents with different scores are ordered by score alone
(descending), and documents with equal scores are ordered by the
resolved criteria acting as tiebreakers. -/
theorem C9_relevance_primary (sortKey s : String) (a b c d : Product × Rat)
    (hne : a.snd ≠ b.snd) (heq : c.snd = d.snd) :
    buildSortObj sortKey (some s) = ("score", SortVal.textScore) :: sortSwitch sortKey
    ∧ cmpSpec (buildSortObj sortKey (some s)) a b = ratCompare b.snd a.snd
    ∧ cmpSpec (buildSortObj sortKey (some s)) c d = cmpSpec (sortSwitch sortKey) c d := by
  refine ⟨rfl, ?_, ?_⟩
  · have hne' := ratCompare_ne_eq a.snd b.snd hne
    have hstep : cmpSpec (buildSortObj sortKey (some s)) a b =
        match ratCompare b.snd a.snd with
        | Ordering.eq => cmpSpec (sortSwitch sortKey) a b
        | o => o := rfl
    rw [hstep]
    cases hc : ratCompare b.snd a.snd with
    | lt => rfl
    | eq => exact (hne' hc).elim
    | gt => rfl
  · have hstep : cmpSpec (buildSortObj sortKey (some s)) c d =
        match ratCompare d.snd c.snd with
        | Ordering.eq => cmpSpec (sortSwitch sortKey) c d
        | o => o := rfl
    rw [hstep, heq, ratCompare_self]

/-- A sample product for the C9 witness. -/
def sortSample : Product :=
  { id := "cccccccccccccccccccccccc"
    name := "Dashboard Kit"
    slug := "dashboard-kit"
    description := "An admin dashboard template kit"
    shortDescription := ""
    price := 20
    category := "templates"
    tags := ["dashboard"]
    images := []
    isActive := true
    isFeatured := false
    stats := { views := 1, downloads := 0, sales := 0, ratingAverage := 4, ratingCount := 2 }
    createdBy := "admin"
    updatedBy := none
    createdAt := 50 }

/-- Witness for claim C9 at sort key `"oldest"` with scores 3 ≠ 1 and
2 = 2. -/
theorem C9_relevance_primary_witness :
    ((sortSample, (3 : Rat)) : Product × Rat).snd ≠ ((sortSample, (1 : Rat)) : Product × Rat).snd
    ∧ ((sortSample, (2 : Rat)) : Product × Rat).snd = ((sortSample, (2 : Rat)) : Product × Rat).snd
    ∧ (buildSortObj "oldest" (some "dashboard") =
        ("score", SortVal.textScore) :: sortSwitch "oldest"
      ∧ cmpSpec (buildSortObj "oldest" (some "dashboard"))
          (sortSample, (3 : Rat)) (sortSample, (1 : Rat)) = ratCompare 1 3
      ∧ cmpSpec (buildSortObj "oldest" (some "dashboard"))
          (sortSample, (2 : Rat)) (sortSample, (2 : Rat)) =
        cmpSpec (sortSwitch "oldest") (sortSample, (2 : Rat)) (sortSample, (2 : Rat))) :=
  ⟨by decide, rfl,
    C9_relevance_primary "oldest" "dashboard"
      (sortSample, 3) (sortSample, 1) (sortSample, 2) (sortSample, 2) (by decide) rfl⟩

/-- Claim C10: a `getProduct` call whose identifier is exactly 24 hex
characters only attempts the store-native id lookup; the slug lookup is
never tried, so a product whose slug is itself 24 hex characters is not
retrievable by that slug — the call returns not-found when no stored id
equals the string, even though the slug lookup would have found an
active product. -/
theorem C10_hex_identifier_shadows_slug (s : String) (store : List Product) (p : Product)
    (h24 : isHex24 s = true)
    (hid : ∀ q ∈ store, (q.id == s) = false)
    (hp : p ∈ store) (hslug : p.slug = s) (_hact : p.isActive = true) :
    getProduct s store = GetResult.notFound
    ∧ (store.find? (fun q => q.slug == s)).isSome = true := by
  constructor
  · unfold getProduct
    rw [if_pos h24]
    rw [List.find?_eq_none.mpr (by intro q hq; simp [hid q hq])]
  · exact List.find?_isSome.mpr ⟨p, hp, by simp [hslug]⟩

/-- An active product whose slug is a 24-hex-character string distinct
from its id, for the C10 witness. -/
def hexSlugSample : Product :=
  { id := "aaaaaaaaaaaaaaaaaaaaaaaa"
    name := "0123456789abcdef01234567"
    slug := "0123456789abcdef01234567"
    description := "A product whose slug looks like an ObjectId"
    shortDescription := ""
    price := 5
    category := "other"
    tags := []
    images := []
    isActive := true
    isFeatured := false
    stats := { views := 0, downloads := 0, sales := 0, ratingAverage := 0, ratingCount := 0 }
    createdBy := "admin"
    updatedBy := none
    createdAt := 10 }

/-- Witness for claim C10: the hex-shaped slug resolves to not-found
although the slug lookup would have matched the active product. -/
theorem C10_hex_identifier_shadows_slug_witness :
    isHex24 "0123456789abcdef01234567" = true
    ∧ (∀ q ∈ [hexSlugSample], (q.id == "0123456789abcdef01234567") = false)
    ∧ hexSlugSample ∈ [hexSlugSample]
    ∧ hexSlugSample.slug = "0123456789abcdef01234567"
    ∧ hexSlugSample.isActive = true
    ∧ (getProduct "0123456789abcdef01234567" [hexSlugSample] = GetResult.notFound
      ∧ ([hexSlugSample].find? (fun q => q.slug == "0123456789abcdef01234567")).isSome = true) :=
  ⟨by decide, by decide, List.mem_singleton.mpr rfl, rfl, rfl,
    C10_hex_identifier_shadows_slug "0123456789abcdef01234567" [hexSlugSample] hexSlugSample
      (by decide) (by decide) (List.mem_singleton.mpr rfl) rfl rfl⟩

/-! ### Claims about the write path -/

/-- The pre-save hooks only touch `slug` and `images`; the stats are
carried through unchanged. -/
theorem preSave_stats (m : ModifiedPaths) (p : Product) : (preSave m p).stats = p.stats := by
  unfold preSave slugHook
  split_ifs <;> rfl

/-- The pre-save hooks carry `isActive` through unchanged. -/
theorem preSave_isActive (m : ModifiedPaths) (p : Product) :
    (preSave m p).isActive = p.isActive := by
  unfold preSave slugHook
  split_ifs <;> rfl

/-- A product with `stats.views = 5` used against claim C6. -/
def counterSample : Product :=
  { id := "dddddddddddddddddddddddd"
    name := "Counter Widget"
    slug := "counter-widget"
    description := "A product with five recorded views"
    shortDescription := ""
    price := 15
    category := "components"
    tags := []
    images := []
    isActive := true
    isFeatured := false
    stats := { views := 5, downloads := 2, sales := 1, ratingAverage := 3, ratingCount := 4 }
    createdBy := "admin"
    updatedBy := none
    createdAt := 40 }

/-- The all-zero stats sub-document. -/
def zeroStats : Stats :=
  { views := 0, downloads := 0, sales := 0, ratingAverage := 0, ratingCount := 0 }

/-- An update body that carries only a caller-supplied `stats` field. -/
def lowerBody : UpdateBody := { stats := some zeroStats }

/-- Claim C6: `updateProduct` never sets the server-managed `slug`,
`stats` or `createdBy` from caller-supplied fields, so no external
writer can set a counter to an arbitrary lower value.  False: the copy
loop on lines 314-318 writes every body key onto the document, so a
body carrying `stats` with zero views overwrites the stored count of 5. -/
theorem C6_counterexample_update_lowers_counter :
    (updateProduct "dddddddddddddddddddddddd" lowerBody "admin" [counterSample]).fst =
      UpdateResult.ok { counterSample with stats := zeroStats, updatedBy := some "admin" }
    ∧ counterSample.stats.views = 5
    ∧ ({ counterSample with stats := zeroStats, updatedBy := some "admin" } : Product).stats.views = 0 := by
  refine ⟨rfl, rfl, rfl⟩

/-- Claim C6 amended: for every body that passes the PUT validators,
the update handler copies every caller-supplied body key onto the
product, including the server-managed `stats` (and likewise `slug` and
`createdBy`), so a caller can set a counter directly to an arbitrary
value; the save then persists exactly the caller-supplied stats. -/
theorem C6_update_stats_caller_controlled (id actor : String) (b : UpdateBody)
    (store : List Product) (p : Product) (s : Stats)
    (hvalid : validUpdateBody (sanitizeUpdateBody b) = true)
    (hfind : store.find? (fun q => q.id == id) = some p)
    (hstats : b.stats = some s)
    (hnocol : slugCollides store (updatedDoc p (sanitizeUpdateBody b) actor) = false) :
    (updateProduct id b actor store).fst =
      UpdateResult.ok (updatedDoc p (sanitizeUpdateBody b) actor)
    ∧ (updatedDoc p (sanitizeUpdateBody b) actor).stats = s := by
  constructor
  · unfold updateProduct
    simp [hvalid, hfind, hnocol]
  · have hs2 : (sanitizeUpdateBody b).stats = some s := by
      simp [sanitizeUpdateBody, hstats]
    simp [updatedDoc, preSave_stats, applyBody, hs2]

/-- Witness for the amended C6: the concrete zero-stats body passes the
validators and lands in the store with views forced from 5 down to 0. -/
theorem C6_update_stats_caller_controlled_witness :
    validUpdateBody (sanitizeUpdateBody lowerBody) = true
    ∧ [counterSample].find? (fun q => q.id == "dddddddddddddddddddddddd") = some counterSample
    ∧ lowerBody.stats = some zeroStats
    ∧ slugCollides [counterSample]
        (updatedDoc counterSample (sanitizeUpdateBody lowerBody) "admin") = false
    ∧ ((updateProduct "dddddddddddddddddddddddd" lowerBody "admin" [counterSample]).fst =
        UpdateResult.ok (updatedDoc counterSample (sanitizeUpdateBody lowerBody) "admin")
      ∧ (updatedDoc counterSample (sanitizeUpdateBody lowerBody) "admin").stats = zeroStats) :=
  ⟨rfl, rfl, rfl, by rfl,
    C6_update_stats_caller_controlled "dddddddddddddddddddddddd" "admin" lowerBody
      [counterSample] counterSample zeroStats rfl rfl rfl (by rfl)⟩

/-- An active product used against claim C7. -/
def lifecycleSample : Product :=
  { id := "eeeeeeeeeeeeeeeeeeeeeeee"
    name := "Life Widget"
    slug := "life-widget"
    description := "A product that will be soft deleted"
    shortDescription := ""
    price := 8
    category := "themes"
    tags := []
    images := []
    isActive := true
    isFeatured := false
    stats := zeroStats
    createdBy := "admin"
    updatedBy := none
    createdAt := 60 }

/-- Claim C7: `Active → Inactive` is the only transition of `isActive`
reachable through the in-scope operations.  False: after a soft delete,
an update whose body carries `isActive: true` — copied by the
lines 314-318 loop like any other key — takes the product back to
active. -/
theorem C7_counterexample_reactivation :
    (softDeleteProduct "eeeeeeeeeeeeeeeeeeeeeeee" "admin" [lifecycleSample]).snd =
      [{ lifecycleSample with isActive := false, updatedBy := some "admin" }]
    ∧ ({ lifecycleSample with isActive := false, updatedBy := some "admin" } : Product).isActive = false
    ∧ (updateProduct "eeeeeeeeeeeeeeeeeeeeeeee" { isActive := some true } "admin"
        [{ lifecycleSample with isActive := false, updatedBy := some "admin" }]).fst =
      UpdateResult.ok { lifecycleSample with isActive := true, updatedBy := some "admin" }
    ∧ ({ lifecycleSample with isActive := true, updatedBy := some "admin" } : Product).isActive = true := by
  refine ⟨rfl, rfl, rfl, rfl⟩

/-- Claim C7 amended: the soft delete itself only drives `isActive` to
false, and an update whose body omits `isActive` preserves it — but the
update handler writes any caller-supplied `isActive` value, so the
`Inactive → Active` transition is reachable through `updateProduct`
with `isActive: true` in the body. -/
theorem C7_isActive_transitions (p : Product) (b : UpdateBody) (actor : String)
    (h : b.isActive = none) :
    (softDeletedDoc p actor).isActive = false
    ∧ (updatedDoc p b actor).isActive = p.isActive := by
  constructor
  · simp [softDeletedDoc, preSave_isActive]
  · simp [updatedDoc, preSave_isActive, applyBody, h]

/-- Witness for the amended C7 at a concrete product and an empty body. -/
theorem C7_isActive_transitions_witness :
    ({} : UpdateBody).isActive = none
    ∧ ((softDeletedDoc lifecycleSample "admin").isActive = false
      ∧ (updatedDoc lifecycleSample {} "admin").isActive = lifecycleSample.isActive) :=
  ⟨rfl, C7_isActive_transitions lifecycleSample {} "admin" rfl⟩

/-- The incumbent product holding the slug `alpha`, for claim C8. -/
def alphaSample : Product :=
  { id := "ffffffffffffffffffffffff"
    name := "Alpha"
    slug := "alpha"
    description := "The original alpha product"
    shortDescription := ""
    price := 5
    category := "templates"
    tags := []
    images := []
    isActive := true
    isFeatured := false
    stats := zeroStats
    createdBy := "admin"
    updatedBy := none
    createdAt := 20 }

/-- A second product that an update will rename into a slug collision. -/
def betaSample : Product :=
  { id := "abcabcabcabcabcabcabcabc"
    name := "Beta"
    slug := "beta"
    description := "The second beta product"
    shortDescription := ""
    price := 6
    category := "templates"
    tags := []
    images := []
    isActive := true
    isFeatured := false
    stats := zeroStats
    createdBy := "admin"
    updatedBy := none
    createdAt := 21 }

/-- Claim C8: on every create or update write path a slug collision
surfaces as the distinct duplicate-slug domain error, never as a
generic server error.  False on the update path: the `PUT` catch
(lines 331-337) has no `error.code === 11000` branch, so renaming Beta
to Alpha — whose regenerated slug collides — answers with the generic
server error. -/
theorem C8_counterexample_update_duplicate :
    (updateProduct "abcabcabcabcabcabcabcabc" { name := some "Alpha" } "admin"
      [alphaSample, betaSample]).fst = UpdateResult.serverError := by
  rfl

/-- Claim C8 amended: for write bodies that pass the validators, a
slug collision on the create path surfaces as the distinct duplicate
response (the `error.code === 11000` branch of lines 257-262), but the
same collision on the update path surfaces as the generic server error,
because the update catch has no duplicate-key branch. -/
theorem C8_duplicate_slug_asymmetric (b : CreateBody) (actor newId : String) (now : Nat)
    (store : List Product) (id actor2 : String) (ub : UpdateBody) (p : Product)
    (hvalid : validCreateBody (sanitizeCreateBody b) = true)
    (hcol : slugCollides store (createdDoc (sanitizeCreateBody b) actor newId now) = true)
    (hvalid2 : validUpdateBody (sanitizeUpdateBody ub) = true)
    (hfind : store.find? (fun q => q.id == id) = some p)
    (hcol2 : slugCollides store (updatedDoc p (sanitizeUpdateBody ub) actor2) = true) :
    (createProduct b actor newId now store).fst = CreateResult.duplicateSlug
    ∧ (updateProduct id ub actor2 store).fst = UpdateResult.serverError := by
  constructor
  · unfold createProduct
    simp [hvalid, hcol]
  · unfold updateProduct
    simp [hvalid2, hfind, hcol2]

/-- The create body of the C8 witness: a valid new product named Alpha. -/
def alphaCreateBody : CreateBody :=
  { name := "Alpha"
    description := "A duplicate named product"
    price := 5
    category := "templates" }

/-- Witness for the amended C8: creating a second Alpha yields the
duplicate response while renaming Beta to Alpha yields the generic
server error. -/
theorem C8_duplicate_slug_asymmetric_witness :
    validCreateBody (sanitizeCreateBody alphaCreateBody) = true
    ∧ slugCollides [alphaSample, betaSample]
        (createdDoc (sanitizeCreateBody alphaCreateBody)
          "admin" "012301230123012301230123" 99) = true
    ∧ validUpdateBody (sanitizeUpdateBody { name := some "Alpha" }) = true
    ∧ [alphaSample, betaSample].find?
        (fun q => q.id == "abcabcabcabcabcabcabcabc") = some betaSample
    ∧ slugCollides [alphaSample, betaSample]
        (updatedDoc betaSample (sanitizeUpdateBody { name := some "Alpha" }) "admin") = true
    ∧ ((createProduct alphaCreateBody "admin" "012301230123012301230123" 99
          [alphaSample, betaSample]).fst = CreateResult.duplicateSlug
      ∧ (updateProduct "abcabcabcabcabcabcabcabc" { name := some "Alpha" } "admin"
          [alphaSample, betaSample]).fst = UpdateResult.serverError) :=
  ⟨by decide, by rfl, by decide, rfl, by rfl,
    C8_duplicate_slug_asymmetric alphaCreateBody "admin" "012301230123012301230123" 99
      [alphaSample, betaSample] "abcabcabcabcabcabcabcabc" "admin"
      { name := some "Alpha" } betaSample (by decide) (by rfl) (by decide) rfl (by rfl)⟩

end Nibras
